import Mathlib

/-!
Verification of the passfortress-sdk client library: a shallow embedding of
`src/passfortress_sdk/client.py` and `src/decorators.py`, followed by theorems
settling the behavioural claims about the authentication-refresh-and-retry
core, payload construction, base-URL derivation and shutdown.
-/

namespace PassfortressSdk

/-- A decoded JSON value (the result of `json.loads` / `response.json()`, and
also the value serialised by `requests` from the `json=` payload argument).
Object fields are kept in insertion order, mirroring Python dicts; the decoded
bodies and payloads in this development never carry duplicate keys. -/
inductive Json where
  | null : Json
  | bool (b : Bool) : Json
  | num (n : Int) : Json
  | str (s : String) : Json
  | arr (elems : List Json) : Json
  | obj (fields : List (String × Json)) : Json

/-- The body of a received HTTP response, as seen through `response.json()`:
either it decodes to a JSON value, or decoding raises a `ValueError` whose
description is recorded. -/
inductive Body where
  | json (j : Json) : Body
  | invalid (errDesc : String) : Body

/-- An HTTP response object: status code plus body. -/
structure HttpResponse where
  status_code : Nat
  body : Body

/-- The outcome of one `session.post(...)` call: either a response object, or
a raised `requests.RequestException` (transport failure: DNS, connection,
timeout after the transport-level retry budget) carrying `str(error)`. -/
inductive PostResult where
  | ok (resp : HttpResponse) : PostResult
  | err (desc : String) : PostResult

/-- A Python value stored in the `message` attribute of the SDK response:
either an ordinary value representable as decoded JSON (all strings included),
or the caught `ValueError` exception object itself, carrying its description. -/
inductive MsgVal where
  | val (j : Json) : MsgVal
  | excObj (desc : String) : MsgVal

/-- The SDK response (`ClientResponse` in the source). The constructor sets
only `status_code`; the other attributes are added afterwards. In every path
that returns, `success` and `message` are assigned; `data` is modelled as an
`Option` because the JSON-parse-failure branch of `_perform_request` never
assigns it (`none` = the attribute was never set on the object). -/
structure ClientResponse where
  status_code : Nat
  success : Json
  message : MsgVal
  data : Option Json

/-- The client's state: credentials (immutable after construction), host,
the derived base URL, and the mutable access token. `access_token = none`
is Python `None`, the absent sentinel. -/
structure Client where
  api_key : String
  secret_key : String
  master_key : String
  host : String
  base_url : String
  access_token : Option String

/-- Python `str.endswith`: suffix test on the character sequence. -/
def pyEndsWith (s suff : String) : Bool :=
  suff.data.isSuffixOf s.data

/-- Models `_build_base_url`: protocol is `https` when the host ends with
`passfortress.com`, `http` otherwise; result is `protocol://host`. -/
def build_base_url (host : String) : String :=
  (if pyEndsWith host "passfortress.com" then "https" else "http") ++ "://" ++ host

/-- The `ENDPOINTS_URLS` registry: logical operation name → path suffix. -/
def ENDPOINTS_URLS : String → Option String
  | "hello" => some "/api/hello/"
  | "request_token" => some "/api/auth/request-token/"
  | "refresh_token" => some "/api/auth/refresh-token/"
  | "get_secrets" => some "/api/get-secrets/"
  | "get_secret" => some "/api/get-secret/"
  | "add_secret" => some "/api/add-secret/"
  | "accept_shared_secret" => some "/api/accept-shared-secret/"
  | "update_secret" => some "/api/update-secret/"
  | "duplicate_secret" => some "/api/duplicate-secret/"
  | "share_secret" => some "/api/share-secret/"
  | "delete_secret" => some "/api/delete-secret/"
  | "get_containers" => some "/api/get-containers/"
  | "get_container" => some "/api/get-container/"
  | "add_container" => some "/api/add-container/"
  | "update_container" => some "/api/update-container/"
  | "delete_container" => some "/api/delete-container/"
  | "get_groups" => some "/api/get-groups/"
  | "add_group" => some "/api/add-group/"
  | _ => none

/-- Models `_endpoint_url`: base URL concatenated with the registry path. Every call
site in the source uses a registered constant, so the lookup never misses;
`getD ""` stands in for the (unreachable) `KeyError`. -/
def endpoint_url (c : Client) (endpoint_name : String) : String :=
  c.base_url ++ (ENDPOINTS_URLS endpoint_name).getD ""

/-- Look up a field of a decoded JSON object (Python `dict` access; keys are
unique in decoded objects, so first match suffices). -/
def lookupField : List (String × Json) → String → Option Json
  | [], _ => none
  | (k, v) :: rest, key => if k = key then some v else lookupField rest key

/-- Models `response.json().get("access_token")` when the decoded body is an object:
JSON `null` decodes to Python `None`, so a `null` field and an absent field
both give the absent sentinel. The token wire contract (spec section 6) has
this field as a string or null/absent; a non-string, non-null value there is
outside the contract and outside every claim, and is folded to the sentinel.
A non-object decoded body makes `.get` raise `AttributeError`. -/
def getAccessToken : Json → Except String (Option String)
  | .obj fields =>
      .ok (match lookupField fields "access_token" with
           | some (.str s) => some s
           | _ => none)
  | _ => .error "AttributeError"

/-- Whether `response.raise_for_status()` raises: HTTP errors are the 4xx and
5xx ranges. -/
def raisesForStatus (status : Nat) : Bool :=
  400 ≤ status && status < 600

/-- Models `_auth_request_token`, given the outcome of its POST to the
`request_token` endpoint: on any raised exception (transport failure,
`raise_for_status` on 4xx/5xx, undecodable body, `.get` on a non-object
body) it returns `None`; otherwise it returns the body's token field. -/
def auth_request_token (r : PostResult) : Option String :=
  match r with
  | .err _ => none
  | .ok resp =>
      if raisesForStatus resp.status_code then none
      else
        match resp.body with
        | .invalid _ => none
        | .json j =>
            match getAccessToken j with
            | .ok t => t
            | .error _ => none

/-- Client construction (`__init__`): stores the credentials and host,
derives the base URL, and sets `access_token` to the result of the initial
token request (whose POST outcome is supplied by the environment). -/
def mkClient (api_key secret_key master_key host : String)
    (token_request : PostResult) : Client :=
  { api_key := api_key
  , secret_key := secret_key
  , master_key := master_key
  , host := host
  , base_url := build_base_url host
  , access_token := auth_request_token token_request }

/-- Models `_auth_refresh_token`, given the outcome of its POST to the
`refresh_token` endpoint. Returns the updated client together with the
method's return value. On any raised exception the `except` clause returns
`None` WITHOUT touching `self.access_token`; the token is only reassigned on
the success path, where it becomes the body's token field (possibly the
absent sentinel when the field is null/absent). -/
def auth_refresh_token (c : Client) (r : PostResult) : Client × Option String :=
  match r with
  | .err _ => (c, none)
  | .ok resp =>
      if raisesForStatus resp.status_code then (c, none)
      else
        match resp.body with
        | .invalid _ => (c, none)
        | .json j =>
            match getAccessToken j with
            | .ok t => ({ c with access_token := t }, t)
            | .error _ => (c, none)

/-- Python f-string interpolation of the access token: `None` prints as the
literal string `None`. -/
def pyStrOfToken : Option String → String
  | none => "None"
  | some s => s

/-- Models `_build_authorization_bearer`: the value of the `Authorization` header
(the source returns the singleton dict with this value). -/
def build_authorization_bearer (c : Client) : String :=
  "Bearer " ++ pyStrOfToken c.access_token

/-- Python `dict.pop(key, default)` on a decoded JSON object: returns the
stored value (or the default) and removes the key. -/
def popField : List (String × Json) → String → Json → Json × List (String × Json)
  | [], _, default => (default, [])
  | (k, v) :: rest, key, default =>
      if k = key then (v, rest)
      else
        let r := popField rest key default
        (r.1, (k, v) :: r.2)

/-- One invocation of the undecorated `_perform_request` body, given the
outcome of its single `session.post`. `Except.error` is an exception escaping
the method: the inner `try` catches only `ValueError` (undecodable body) and
the outer one only `requests.RequestException` (transport failure), so
`.pop` on a decoded body that is not an object — `TypeError` on a list,
`AttributeError` otherwise — propagates. -/
def perform_request_once (r : PostResult) : Except String ClientResponse :=
  match r with
  | .err desc =>
      .ok { status_code := 0
          , success := .bool false
          , message := .val (.str desc)
          , data := some (.obj []) }
  | .ok resp =>
      match resp.body with
      | .invalid desc =>
          .ok { status_code := resp.status_code
              , success := .bool false
              , message := .excObj desc
              , data := none }
      | .json (.obj fields) =>
          let s := popField fields "success" (.bool false)
          let m := popField s.2 "message" (.str "")
          .ok { status_code := resp.status_code
              , success := s.1
              , message := .val m.1
              , data := some (.obj m.2) }
      | .json (.arr _) => .error "TypeError"
      | .json _ => .error "AttributeError"

/-- The observable content of one outbound resource POST: resolved URL,
`Authorization` header value, JSON payload. -/
structure SentRequest where
  url : String
  authorization : String
  body : Json

/-- The request `_perform_request` sends for a given client state. -/
def sentRequest (c : Client) (endpoint_name : String) (payload : Json) : SentRequest :=
  { url := endpoint_url c endpoint_name
  , authorization := build_authorization_bearer c
  , body := payload }

/-- The environment of one decorated operation: outcome of the first resource
POST, of the refresh POST (consulted only if a refresh is triggered), and of
the second resource POST (consulted only if the call is reissued). -/
structure OpEnv where
  first : PostResult
  refreshResult : PostResult
  second : PostResult

/-- The observable trace of one decorated operation: its outcome (the raised
exception or the returned SDK response), the resource-endpoint POSTs sent in
order, the number of refresh-transition invocations, and the client state
after the call. -/
structure OpTrace where
  result : Except String ClientResponse
  sent : List SentRequest
  refresh_calls : Nat
  finalClient : Client

/-- Models `_perform_request` decorated with `refresh_token_on_expiry`: run the body
once; if it raised, propagate (the request was already sent); if the returned
SDK response has status 452, run `_auth_refresh_token` once and reissue the
body once — rebuilding the bearer header from the then-current token — and
surface the second invocation's outcome, whatever it is. -/
def perform_request (c : Client) (endpoint_name : String) (payload : Json)
    (env : OpEnv) : OpTrace :=
  let req1 := sentRequest c endpoint_name payload
  match perform_request_once env.first with
  | .error e =>
      { result := .error e, sent := [req1], refresh_calls := 0, finalClient := c }
  | .ok cr =>
      if cr.status_code = 452 then
        let c2 := (auth_refresh_token c env.refreshResult).1
        let req2 := sentRequest c2 endpoint_name payload
        { result := perform_request_once env.second
        , sent := [req1, req2]
        , refresh_calls := 1
        , finalClient := c2 }
      else
        { result := .ok cr, sent := [req1], refresh_calls := 0, finalClient := c }

/-- The `hello` operation. -/
def hello (c : Client) (env : OpEnv) : OpTrace :=
  perform_request c "hello"
    (.obj [ ("api_key", .str c.api_key)
          , ("master_key", .str c.master_key)
          , ("greeting", .str "hello") ]) env

/-- The `get_secret` operation. -/
def get_secret (c : Client) (secret_uuid : String) (env : OpEnv) : OpTrace :=
  perform_request c "get_secret"
    (.obj [ ("api_key", .str c.api_key)
          , ("master_key", .str c.master_key)
          , ("secret", .obj [("uuid", .str secret_uuid)]) ]) env

/-- The `add_secret` operation: the caller's dict is passed through verbatim
under the `secret` key. -/
def add_secret (c : Client) (secret_data : Json) (env : OpEnv) : OpTrace :=
  perform_request c "add_secret"
    (.obj [ ("api_key", .str c.api_key)
          , ("master_key", .str c.master_key)
          , ("secret", secret_data) ]) env

/-- The `update_secret` operation. -/
def update_secret (c : Client) (secret_data : Json) (env : OpEnv) : OpTrace :=
  perform_request c "update_secret"
    (.obj [ ("api_key", .str c.api_key)
          , ("master_key", .str c.master_key)
          , ("secret", secret_data) ]) env

/-- The `get_secrets` operation. -/
def get_secrets (c : Client) (secret_data : Json) (env : OpEnv) : OpTrace :=
  perform_request c "get_secrets"
    (.obj [ ("api_key", .str c.api_key)
          , ("master_key", .str c.master_key)
          , ("secret", secret_data) ]) env

/-- The `get_containers` operation: the caller's dict is passed through
verbatim under the `container` key. -/
def get_containers (c : Client) (container_data : Json) (env : OpEnv) : OpTrace :=
  perform_request c "get_containers"
    (.obj [ ("api_key", .str c.api_key)
          , ("master_key", .str c.master_key)
          , ("container", container_data) ]) env

/-- The `add_container` operation. -/
def add_container (c : Client) (container_data : Json) (env : OpEnv) : OpTrace :=
  perform_request c "add_container"
    (.obj [ ("api_key", .str c.api_key)
          , ("master_key", .str c.master_key)
          , ("container", container_data) ]) env

/-- The `update_container` operation. -/
def update_container (c : Client) (container_data : Json) (env : OpEnv) : OpTrace :=
  perform_request c "update_container"
    (.obj [ ("api_key", .str c.api_key)
          , ("master_key", .str c.master_key)
          , ("container", container_data) ]) env

/-- The `get_groups` operation: the caller's dict is passed through verbatim
under the `group` key. -/
def get_groups (c : Client) (group_data : Json) (env : OpEnv) : OpTrace :=
  perform_request c "get_groups"
    (.obj [ ("api_key", .str c.api_key)
          , ("master_key", .str c.master_key)
          , ("group", group_data) ]) env

/-- The `add_group` operation. -/
def add_group (c : Client) (group_data : Json) (env : OpEnv) : OpTrace :=
  perform_request c "add_group"
    (.obj [ ("api_key", .str c.api_key)
          , ("master_key", .str c.master_key)
          , ("group", group_data) ]) env

/-- Whether the underlying `session.close()` call itself succeeds or raises. -/
inductive CloseBehavior where
  | ok : CloseBehavior
  | fails (desc : String) : CloseBehavior

/-- The raw `session.close()` call. -/
def session_close : CloseBehavior → Except String Unit
  | .ok => .ok ()
  | .fails desc => .error desc

/-- Models `close`: wraps `session.close()` in `try ... except Exception: pass`, so
it returns normally whatever the underlying call does. -/
def close (b : CloseBehavior) : Except String Unit :=
  match session_close b with
  | .ok _ => .ok ()
  | .error _ => .ok ()

/-! ## Auxiliary predicates and shared lemmas -/

/-- Response bodies on which `_perform_request`s parsing code cannot raise:
either the body fails to decode (caught `ValueError`) or it decodes to a JSON
object (so `.pop` is dict pop). -/
def dictOrInvalid : Body → Bool
  | .invalid _ => true
  | .json (.obj _) => true
  | _ => false

/-- POST outcomes on which one invocation of the `_perform_request` body
returns an SDK response rather than raising: a transport failure (caught) or
a response whose body is `dictOrInvalid`. -/
def postSafe : PostResult → Bool
  | .err _ => true
  | .ok resp => dictOrInvalid resp.body

/-- POST outcomes on which `_auth_refresh_token` takes its exception path:
the request raised, the status is 4xx/5xx, the body does not decode, or the
decoded body is not an object. -/
def refreshFails : PostResult → Bool
  | .err _ => true
  | .ok resp =>
      raisesForStatus resp.status_code ||
      (match resp.body with
       | .invalid _ => true
       | .json (.obj _) => false
       | .json _ => true)

/-- A concrete client used by the concrete-input theorems: credentials
`k`/`s`/`m`, non-production host, a live token `tok0`. -/
def demoClient : Client :=
  { api_key := "k", secret_key := "s", master_key := "m"
  , host := "example.test", base_url := "http://example.test"
  , access_token := some "tok0" }

theorem perform_request_once_ok_of_safe (r : PostResult) (h : postSafe r = true) :
    ∃ cr, perform_request_once r = .ok cr := by
  cases r with
  | err desc => exact ⟨_, rfl⟩
  | ok resp =>
    obtain ⟨sc, body⟩ := resp
    cases body with
    | invalid desc => exact ⟨_, rfl⟩
    | json j =>
      cases j with
      | obj fields => exact ⟨_, rfl⟩
      | null => simp [postSafe, dictOrInvalid] at h
      | bool b => simp [postSafe, dictOrInvalid] at h
      | num n => simp [postSafe, dictOrInvalid] at h
      | str s => simp [postSafe, dictOrInvalid] at h
      | arr elems => simp [postSafe, dictOrInvalid] at h

theorem auth_refresh_token_of_fails (c : Client) (r : PostResult)
    (h : refreshFails r = true) : auth_refresh_token c r = (c, none) := by
  cases r with
  | err desc => rfl
  | ok resp =>
    obtain ⟨sc, body⟩ := resp
    simp only [refreshFails, Bool.or_eq_true] at h
    unfold auth_refresh_token
    rcases h with h | h
    · simp [h]
    · cases hrs : raisesForStatus sc with
      | true => simp [hrs]
      | false =>
        simp only [hrs, Bool.false_eq_true, if_false]
        cases body with
        | invalid desc => rfl
        | json j =>
          cases j with
          | obj fields => simp at h
          | null => rfl
          | bool b => rfl
          | num n => rfl
          | str s => rfl
          | arr elems => rfl

theorem perform_request_sent_head (c : Client) (endpoint_name : String)
    (payload : Json) (env : OpEnv) :
    (perform_request c endpoint_name payload env).sent.head? =
      some (sentRequest c endpoint_name payload) := by
  unfold perform_request
  cases perform_request_once env.first with
  | error e => rfl
  | ok cr =>
    by_cases h : cr.status_code = 452 <;> simp [h]

theorem perform_request_refresh_shape (c : Client) (endpoint_name : String)
    (payload : Json) (env : OpEnv) (r1 : HttpResponse) (h1 : env.first = .ok r1)
    (h452 : r1.status_code = 452) (hb : dictOrInvalid r1.body = true) :
    perform_request c endpoint_name payload env =
      { result := perform_request_once env.second
      , sent := [ sentRequest c endpoint_name payload
                , sentRequest (auth_refresh_token c env.refreshResult).1
                    endpoint_name payload ]
      , refresh_calls := 1
      , finalClient := (auth_refresh_token c env.refreshResult).1 } := by
  unfold perform_request
  rw [h1]
  obtain ⟨sc, body⟩ := r1
  simp only at h452
  subst h452
  cases body with
  | invalid desc => rfl
  | json j =>
    cases j with
    | obj fields => simp [perform_request_once]
    | null => simp [dictOrInvalid] at hb
    | bool b => simp [dictOrInvalid] at hb
    | num n => simp [dictOrInvalid] at hb
    | str s => simp [dictOrInvalid] at hb
    | arr elems => simp [dictOrInvalid] at hb

/-! ## Claim C1 -/

/-- Environment refuting C1 as stated: the first POST returns status 452, but
its body is valid JSON that is not an object (an empty array). -/
def c1Env : OpEnv :=
  { first := .ok { status_code := 452, body := .json (.arr []) }
  , refreshResult := .err "unused", second := .err "unused" }

/-- Claim C1 as stated is false: when the first POST returns a 452 response
whose body is valid JSON but not a JSON object, `.pop` raises a `TypeError`
before the decorator can inspect the status, so no refresh happens, no second
POST is issued, and the exception propagates instead of a second result. -/
theorem c1_counterexample :
    c1Env.first = .ok { status_code := 452, body := .json (.arr []) } ∧
    (hello demoClient c1Env).refresh_calls = 0 ∧
    (hello demoClient c1Env).sent.length = 1 ∧
    (hello demoClient c1Env).result = .error "TypeError" :=
  ⟨rfl, rfl, rfl, rfl⟩

/-- Claim C1 (amended): if the first POST returns a 452 response whose body is
either not valid JSON or a JSON object, the client performs the refresh
transition exactly once and reissues the same POST (same URL and payload,
bearer header rebuilt from the then-current token) exactly once more,
regardless of whether the refresh succeeded; exactly two outbound resource
requests are made even if the second response is also 452, and the operation's
outcome is the second invocation's, not the first's. -/
theorem c1_refresh_then_single_retry
    (c : Client) (endpoint_name : String) (payload : Json) (env : OpEnv)
    (r1 : HttpResponse) (h1 : env.first = .ok r1)
    (h452 : r1.status_code = 452) (hb : dictOrInvalid r1.body = true) :
    (perform_request c endpoint_name payload env).refresh_calls = 1 ∧
    (perform_request c endpoint_name payload env).sent =
      [ sentRequest c endpoint_name payload
      , sentRequest (auth_refresh_token c env.refreshResult).1
          endpoint_name payload ] ∧
    (perform_request c endpoint_name payload env).result =
      perform_request_once env.second := by
  rw [perform_request_refresh_shape c endpoint_name payload env r1 h1 h452 hb]
  exact ⟨rfl, rfl, rfl⟩

/-- Environment for the C1 witness: 452 first, a successful refresh, then a
second 452 — the expiry-twice scenario. -/
def c1WitnessEnv : OpEnv :=
  { first := .ok { status_code := 452, body := .json (.obj []) }
  , refreshResult :=
      .ok { status_code := 200
          , body := .json (.obj [("access_token", .str "tok1")]) }
  , second := .ok { status_code := 452, body := .json (.obj []) } }

/-- Witness for the amended C1 at a concrete input. -/
theorem c1_witness :
    (perform_request demoClient "hello" (.obj []) c1WitnessEnv).refresh_calls = 1 ∧
    (perform_request demoClient "hello" (.obj []) c1WitnessEnv).sent =
      [ sentRequest demoClient "hello" (.obj [])
      , sentRequest (auth_refresh_token demoClient c1WitnessEnv.refreshResult).1
          "hello" (.obj []) ] ∧
    (perform_request demoClient "hello" (.obj []) c1WitnessEnv).result =
      perform_request_once c1WitnessEnv.second :=
  c1_refresh_then_single_retry demoClient "hello" (.obj []) c1WitnessEnv
    { status_code := 452, body := .json (.obj []) } rfl rfl rfl

/-! ## Claim C2 -/

/-- Claim C2: when the POST raises a transport-level error before any
response is received, the operation returns a result with `status_code = 0`,
`success = false`, `message` the error description and `data = \x7b\x7d`, and
no refresh attempt and no second request are made for that call. -/
theorem c2_transport_failure
    (c : Client) (endpoint_name : String) (payload : Json) (env : OpEnv)
    (desc : String) (h : env.first = .err desc) :
    (perform_request c endpoint_name payload env).result =
      .ok { status_code := 0, success := .bool false
          , message := .val (.str desc), data := some (.obj []) } ∧
    (perform_request c endpoint_name payload env).refresh_calls = 0 ∧
    (perform_request c endpoint_name payload env).sent.length = 1 := by
  unfold perform_request
  rw [h]
  exact ⟨rfl, rfl, rfl⟩

/-- Environment for the C2 witness: the first POST fails at transport level. -/
def c2WitnessEnv : OpEnv :=
  { first := .err "connection timed out"
  , refreshResult := .err "unused", second := .err "unused" }

/-- Witness for C2 at a concrete input. -/
theorem c2_witness :
    (perform_request demoClient "get_secrets" (.obj []) c2WitnessEnv).result =
      .ok { status_code := 0, success := .bool false
          , message := .val (.str "connection timed out")
          , data := some (.obj []) } ∧
    (perform_request demoClient "get_secrets" (.obj []) c2WitnessEnv).refresh_calls = 0 ∧
    (perform_request demoClient "get_secrets" (.obj []) c2WitnessEnv).sent.length = 1 :=
  c2_transport_failure demoClient "get_secrets" (.obj []) c2WitnessEnv
    "connection timed out" rfl

/-! ## Claim C3 -/

/-- Environment refuting C3: the triggering call gets 452, the refresh POST
returns a 500 (a failing refresh), the reissued call gets 200. -/
def c3Env : OpEnv :=
  { first := .ok { status_code := 452, body := .json (.obj []) }
  , refreshResult := .ok { status_code := 500, body := .json (.obj []) }
  , second := .ok { status_code := 200, body := .json (.obj []) } }

/-- Claim C3 as stated is false: after a failing refresh (here a 500 status,
so `raise_for_status` raises and the `except` clause runs), the stored
`access_token` is NOT set to the absent sentinel — the `except` clause only
returns `None` without assigning `self.access_token`, so the previous token
`tok0` is still stored. -/
theorem c3_counterexample :
    (hello demoClient c3Env).refresh_calls = 1 ∧
    (hello demoClient c3Env).finalClient.access_token = some "tok0" ∧
    (hello demoClient c3Env).finalClient.access_token ≠ none := by
  refine ⟨rfl, rfl, ?_⟩
  rw [show (hello demoClient c3Env).finalClient.access_token = some "tok0" from rfl]
  exact Option.some_ne_none "tok0"

/-- Claim C3 (amended): whenever the refresh transition fails by raising
(transport error, 4xx/5xx status, body that is not valid JSON, or a decoded
body that is not an object), the refresh call returns the absent sentinel but
the client's stored `access_token` — indeed the whole client state — is left
unchanged; the triggering call's own outcome (the reissued request's result)
is returned as-is, with no further retry beyond the two outbound requests. -/
theorem c3_failed_refresh_leaves_token_unchanged
    (c : Client) (endpoint_name : String) (payload : Json) (env : OpEnv)
    (r1 : HttpResponse) (h1 : env.first = .ok r1) (h452 : r1.status_code = 452)
    (hb : dictOrInvalid r1.body = true)
    (hr : refreshFails env.refreshResult = true) :
    (perform_request c endpoint_name payload env).finalClient = c ∧
    (auth_refresh_token c env.refreshResult).2 = none ∧
    (perform_request c endpoint_name payload env).result =
      perform_request_once env.second ∧
    (perform_request c endpoint_name payload env).sent.length = 2 := by
  have hshape := perform_request_refresh_shape c endpoint_name payload env r1 h1 h452 hb
  have hfail := auth_refresh_token_of_fails c env.refreshResult hr
  rw [hshape, hfail]
  exact ⟨rfl, rfl, rfl, rfl⟩

/-- Witness for the amended C3 at a concrete input. -/
theorem c3_witness :
    (perform_request demoClient "hello" (.obj []) c3Env).finalClient = demoClient ∧
    (auth_refresh_token demoClient c3Env.refreshResult).2 = none ∧
    (perform_request demoClient "hello" (.obj []) c3Env).result =
      perform_request_once c3Env.second ∧
    (perform_request demoClient "hello" (.obj []) c3Env).sent.length = 2 :=
  c3_failed_refresh_leaves_token_unchanged demoClient "hello" (.obj []) c3Env
    { status_code := 452, body := .json (.obj []) } rfl rfl rfl rfl

/-! ## Claim C4 -/

/-- Environment for the C4 failing input: an HTTP 200 response whose body is
not valid JSON. -/
def c4Env : OpEnv :=
  { first := .ok { status_code := 200, body := .invalid "Expecting value: line 1 column 1" }
  , refreshResult := .err "unused", second := .err "unused" }

/-- Claim C4 names the intended behaviour, but the code's JSON-parse-failure
branch never assigns `client_response.data` (modelled as `data = none`, the
attribute left unset, instead of the empty dict) and stores the `ValueError`
object itself, not its description string, in `message`; the status code does
reflect the actual HTTP status (200), and `success` is `False`, as claimed. -/
theorem c4_parse_failure_data_unassigned :
    (hello demoClient c4Env).result =
      .ok { status_code := 200, success := .bool false
          , message := .excObj "Expecting value: line 1 column 1"
          , data := none } ∧
    (hello demoClient c4Env).refresh_calls = 0 :=
  ⟨rfl, rfl⟩

/-! ## Claim C5 -/

/-- Environment refuting C5: a 200 response whose body is valid JSON but a
string, not an object. -/
def c5Env : OpEnv :=
  { first := .ok { status_code := 200, body := .json (.str "maintenance") }
  , refreshResult := .err "unused", second := .err "unused" }

/-- Claim C5 as stated is false: a received response whose body is valid JSON
but not a JSON object (here the JSON string `"maintenance"` with HTTP 200)
makes `response_dict.pop` raise — caught by neither the inner
`except ValueError` nor the outer `except requests.RequestException` — so an
exception crosses the public method boundary instead of a Normalized
Result. -/
theorem c5_counterexample :
    (hello demoClient c5Env).result = .error "AttributeError" := rfl

/-- Claim C5 (amended): for every public resource operation, no exception
crosses the public method boundary — a Normalized Result is returned — for
every outcome in which each received response body either fails to decode as
JSON or decodes to a JSON object (this covers successful responses,
expiry-and-retry, transport failures and malformed bodies); only a body that
is valid JSON but not a JSON object escapes as an uncaught exception. -/
theorem c5_no_raise_on_safe_bodies
    (c : Client) (endpoint_name : String) (payload : Json) (env : OpEnv)
    (h1 : postSafe env.first = true) (h2 : postSafe env.second = true) :
    ∃ cr, (perform_request c endpoint_name payload env).result = .ok cr := by
  obtain ⟨cr1, hcr1⟩ := perform_request_once_ok_of_safe env.first h1
  obtain ⟨cr2, hcr2⟩ := perform_request_once_ok_of_safe env.second h2
  unfold perform_request
  rw [hcr1]
  by_cases h : cr1.status_code = 452
  · exact ⟨cr2, by simp [h, hcr2]⟩
  · exact ⟨cr1, by simp [h]⟩

/-- Environment for the C5 witness: 452 with an undecodable body, a failing
refresh, and a transport failure on the reissued request — every failure mode
at once, still no escaping exception. -/
def c5WitnessEnv : OpEnv :=
  { first := .ok { status_code := 452, body := .invalid "noise" }
  , refreshResult := .err "refresh down"
  , second := .err "still down" }

/-- Witness for the amended C5 at a concrete input. -/
theorem c5_witness :
    ∃ cr, (perform_request demoClient "hello" (.obj []) c5WitnessEnv).result = .ok cr :=
  c5_no_raise_on_safe_bodies demoClient "hello" (.obj []) c5WitnessEnv rfl rfl

/-! ## Claim C6 -/

/-- Claim C6: for every resource operation whose payload contains only
pass-through fields — `add_secret`, `update_secret`, `get_secrets` (resource
key `secret`), `get_containers`, `add_container`, `update_container`
(resource key `container`), `get_groups`, `add_group` (resource key `group`)
— with an arbitrary input dict, the outbound JSON body is exactly the object
with keys `api_key`, `master_key` and the resource key mapped to the input
value unchanged: no renaming, dropping or reordering, and `api_key` and
`master_key` are always present. -/
theorem c6_passthrough_payload_roundtrip (c : Client) (d : Json) (env : OpEnv) :
    ((add_secret c d env).sent.map SentRequest.body).head? =
      some (.obj [ ("api_key", .str c.api_key)
                 , ("master_key", .str c.master_key), ("secret", d) ]) ∧
    ((update_secret c d env).sent.map SentRequest.body).head? =
      some (.obj [ ("api_key", .str c.api_key)
                 , ("master_key", .str c.master_key), ("secret", d) ]) ∧
    ((get_secrets c d env).sent.map SentRequest.body).head? =
      some (.obj [ ("api_key", .str c.api_key)
                 , ("master_key", .str c.master_key), ("secret", d) ]) ∧
    ((get_containers c d env).sent.map SentRequest.body).head? =
      some (.obj [ ("api_key", .str c.api_key)
                 , ("master_key", .str c.master_key), ("container", d) ]) ∧
    ((add_container c d env).sent.map SentRequest.body).head? =
      some (.obj [ ("api_key", .str c.api_key)
                 , ("master_key", .str c.master_key), ("container", d) ]) ∧
    ((update_container c d env).sent.map SentRequest.body).head? =
      some (.obj [ ("api_key", .str c.api_key)
                 , ("master_key", .str c.master_key), ("container", d) ]) ∧
    ((get_groups c d env).sent.map SentRequest.body).head? =
      some (.obj [ ("api_key", .str c.api_key)
                 , ("master_key", .str c.master_key), ("group", d) ]) ∧
    ((add_group c d env).sent.map SentRequest.body).head? =
      some (.obj [ ("api_key", .str c.api_key)
                 , ("master_key", .str c.master_key), ("group", d) ]) := by
  refine ⟨?_, ?_, ?_, ?_, ?_, ?_, ?_, ?_⟩ <;>
    · simp only [add_secret, update_secret, get_secrets, get_containers,
        add_container, update_container, get_groups, add_group,
        List.head?_map, perform_request_sent_head]
      rfl

/-! ## Claim C7 -/

/-- Claim C7: `get_secret "abc-123"` sends the payload with keys `api_key`,
`master_key` and `secret = \x7buuid: "abc-123"\x7d` to the path
`/api/get-secret/` resolved against the client's base URL. -/
theorem c7_get_secret_payload_and_url (c : Client) (env : OpEnv) :
    ((get_secret c "abc-123" env).sent.map (fun r => (r.url, r.body))).head? =
      some ( c.base_url ++ "/api/get-secret/"
           , .obj [ ("api_key", .str c.api_key)
                  , ("master_key", .str c.master_key)
                  , ("secret", .obj [("uuid", .str "abc-123")]) ] ) := by
  unfold get_secret
  rw [List.head?_map, perform_request_sent_head]
  rfl

/-! ## Claim C8 -/

/-- Claim C8: the derived base URL uses the secure scheme exactly when the
configured host ends with the production domain suffix `passfortress.com`,
and the insecure scheme otherwise; in particular a client constructed with
host `example.test` has base URL `http://example.test`. -/
theorem c8_base_url_scheme :
    (∀ host : String,
        build_base_url host = "https://" ++ host ↔
          pyEndsWith host "passfortress.com" = true) ∧
    (∀ host : String, pyEndsWith host "passfortress.com" = false →
        build_base_url host = "http://" ++ host) ∧
    (mkClient "k" "s" "m" "example.test" (.err "down")).base_url =
      "http://example.test" := by
  have hhttp : ∀ h : String, ("http" ++ ("://" ++ h) : String) = "http://" ++ h := by
    intro h
    rw [← String.append_assoc]
    rfl
  have hhttps : ∀ h : String, ("https" ++ ("://" ++ h) : String) = "https://" ++ h := by
    intro h
    rw [← String.append_assoc]
    rfl
  have hinsecure : ∀ host : String, pyEndsWith host "passfortress.com" = false →
      build_base_url host = "http://" ++ host := by
    intro host hne
    rw [build_base_url, if_neg (by simp [hne])]
    exact hhttp host
  refine ⟨?_, hinsecure, ?_⟩
  · intro host
    constructor
    · intro heq
      by_contra hne
      rw [Bool.not_eq_true] at hne
      rw [hinsecure host hne] at heq
      have hlen := congrArg String.length heq
      rw [String.length_append, String.length_append] at hlen
      have h7 : ("http://" : String).length = 7 := rfl
      have h8 : ("https://" : String).length = 8 := rfl
      rw [h7, h8] at hlen
      omega
    · intro hew
      rw [build_base_url, if_pos hew]
      exact hhttps host
  · exact hinsecure "example.test" (by decide)

/-- Witness for C8 at concrete hosts on both sides of the suffix test. -/
theorem c8_witness :
    build_base_url "app.passfortress.com" = "https://" ++ "app.passfortress.com" ∧
    build_base_url "internal.example.test" = "http://" ++ "internal.example.test" :=
  ⟨(c8_base_url_scheme.1 "app.passfortress.com").mpr (by decide),
   c8_base_url_scheme.2.1 "internal.example.test" (by decide)⟩

/-! ## Claim C9 -/

/-- Claim C9: `close` may be called any number of times in succession and
never raises, even when closing the underlying session fails — every call in
any sequence of calls, with any mix of underlying close outcomes, returns
normally. -/
theorem c9_close_idempotent_never_raises :
    (∀ b : CloseBehavior, close b = Except.ok ()) ∧
    (∀ calls : List CloseBehavior,
        calls.map close = calls.map fun _ => Except.ok ()) := by
  have hone : ∀ b : CloseBehavior, close b = Except.ok () := by
    intro b
    cases b <;> rfl
  refine ⟨hone, ?_⟩
  intro calls
  induction calls with
  | nil => rfl
  | cons b bs ih => simp [hone b, ih]

/-! ## Claim C10 -/

/-- Claim C10: when `access_token` holds the absent sentinel (for instance
after the initial token request fails at construction), every resource
operation still proceeds and its first outbound POST carries the literal
`Authorization` value `Bearer None` — the sentinel is string-interpolated
into the header rather than the header being omitted or the call failing
fast. -/
theorem c10_absent_token_sends_bearer_none
    (c : Client) (endpoint_name : String) (payload : Json) (env : OpEnv)
    (h : c.access_token = none) :
    build_authorization_bearer c = "Bearer None" ∧
    ((perform_request c endpoint_name payload env).sent.map
        SentRequest.authorization).head? = some "Bearer None" ∧
    (∀ a s m hst d : String, (mkClient a s m hst (.err d)).access_token = none) := by
  have hb : build_authorization_bearer c = "Bearer None" := by
    simp [build_authorization_bearer, h, pyStrOfToken]
  refine ⟨hb, ?_, ?_⟩
  · rw [List.head?_map, perform_request_sent_head]
    simp [sentRequest, hb]
  · intro a s m hst d
    rfl

/-- A client whose construction-time token request failed at the transport
level, leaving the absent sentinel stored. -/
def c10Client : Client := mkClient "k" "s" "m" "example.test" (.err "connection refused")

/-- Environment for the C10 witness. -/
def c10WitnessEnv : OpEnv :=
  { first := .err "api down", refreshResult := .err "unused", second := .err "unused" }

/-- Witness for C10 at a concrete input. -/
theorem c10_witness :
    build_authorization_bearer c10Client = "Bearer None" ∧
    ((perform_request c10Client "hello" (.obj []) c10WitnessEnv).sent.map
        SentRequest.authorization).head? = some "Bearer None" ∧
    (∀ a s m hst d : String, (mkClient a s m hst (.err d)).access_token = none) :=
  c10_absent_token_sends_bearer_none c10Client "hello" (.obj []) c10WitnessEnv rfl

end PassfortressSdk
